import Mathlib

/-
Shallow embedding of the movement/collision core of `src/commons-model.js`
(the "inside-parliament" House of Commons explorer).

Numbers: the JavaScript source computes with IEEE doubles; the embedding uses
exact rationals (`ℚ`).  Division in `ℚ` follows Lean's convention `x / 0 = 0`;
the source only divides by bounding-box extents, which are nonnegative for any
box that can contain a point, so this convention is only visible on degenerate
(zero-extent) boxes.  The one irrational constant of the per-tick update,
`1 / Math.sqrt 2` arising from `direction.normalize()` on diagonal input, is
threaded through as an explicit parameter `invSqrt2` standing for the host's
floating-point value of it.  The jump impulse `Math.sqrt (2 * gravity *
jumpHeight)` of the Space-key handler lives in a small real-valued model of
that handler.
-/

namespace InsideParliament

/-- A 3-component vector, mirroring `THREE.Vector3` as used by the source
(exact rational coordinates). -/
structure Vec3 where
  x : ℚ
  y : ℚ
  z : ℚ
deriving DecidableEq, Repr

/-- An axis-aligned box, mirroring `THREE.Box3` (min/max corners). -/
structure Box3 where
  bmin : Vec3
  bmax : Vec3
deriving DecidableEq, Repr

/-- Mirrors `THREE.Box3.containsPoint`: inclusive containment on all three axes. -/
def Box3.containsPoint (b : Box3) (p : Vec3) : Prop :=
  b.bmin.x ≤ p.x ∧ p.x ≤ b.bmax.x ∧
  b.bmin.y ≤ p.y ∧ p.y ≤ b.bmax.y ∧
  b.bmin.z ≤ p.z ∧ p.z ≤ b.bmax.z

instance (b : Box3) (p : Vec3) : Decidable (b.containsPoint p) := by
  unfold Box3.containsPoint; infer_instance

/-- Mirrors `THREE.Box3.getCenter`: the midpoint of the two corners. -/
def Box3.center (b : Box3) : Vec3 :=
  ⟨(b.bmin.x + b.bmax.x) / 2, (b.bmin.y + b.bmax.y) / 2, (b.bmin.z + b.bmax.z) / 2⟩

/-- Mirrors `THREE.Box3.getSize`: the componentwise extent `max - min`. -/
def Box3.size (b : Box3) : Vec3 :=
  ⟨b.bmax.x - b.bmin.x, b.bmax.y - b.bmin.y, b.bmax.z - b.bmin.z⟩

/-- Mirrors `THREE.Box3.expandByScalar`: grow the box by `s` on every side. -/
def Box3.expandByScalar (b : Box3) (s : ℚ) : Box3 :=
  ⟨⟨b.bmin.x - s, b.bmin.y - s, b.bmin.z - s⟩, ⟨b.bmax.x + s, b.bmax.y + s, b.bmax.z + s⟩⟩

/-- Translating a (geometry-local) bounding box to world space: the source does
`boundingBox.min.add(objectWorldPosition); boundingBox.max.add(...)`. -/
def Box3.translate (b : Box3) (v : Vec3) : Box3 :=
  ⟨⟨b.bmin.x + v.x, b.bmin.y + v.y, b.bmin.z + v.z⟩,
   ⟨b.bmax.x + v.x, b.bmax.y + v.y, b.bmax.z + v.z⟩⟩

/-- Squared Euclidean distance.  The source compares
`object.position.distanceTo(position) > 5`; since both sides are nonnegative
this is exactly `dist2 > 25`, which keeps the embedding inside `ℚ`. -/
def dist2 (p q : Vec3) : ℚ :=
  (p.x - q.x) ^ 2 + (p.y - q.y) ^ 2 + (p.z - q.z) ^ 2

/-- Mirrors `Math.sign` (the source never feeds it `NaN`; `±0` both map to `0`). -/
def mathSign (q : ℚ) : ℚ :=
  if 0 < q then 1 else if q < 0 then -1 else 0

/-- Constant `gravity = 30.0` (line 1245). -/
def gravity : ℚ := 30

/-- Constant `jumpHeight = 2.0` (line 1246). -/
def jumpHeight : ℚ := 2

/-- Constant `playerHeight = 1.6` (line 1247): the camera/standing height. -/
def playerHeight : ℚ := 8 / 5

/-- Constant `playerRadius = 0.3` (line 1248). -/
def playerRadius : ℚ := 3 / 10

/-- The fixed floor backstop box of lines 1254-1257. -/
def floorCollisionBox : Box3 :=
  ⟨⟨-20, -1/10, -20⟩, ⟨20, 1/10, 20⟩⟩

/-- A collidable scene object as the collision code sees it.  Every collidable
mesh of `createHouseOfCommons` is a top-level scene child, so its `.position`
and `getWorldPosition` agree; the model keeps the single optional world
`position` (objects lacking both are skipped, line 1693).  `geomBox` is the
geometry-local bounding box; `none` models an object without a geometry, which
the loop never tests (the `if (object.geometry)` guard, line 1699). -/
structure Solid where
  position : Option Vec3
  geomBox : Option Box3
deriving DecidableEq, Repr

/-- The result record of `checkCollisions` (lines 1659-1663): `distance`
starts at `Infinity`, modelled as `⊤ : WithTop ℚ`. -/
structure CollisionResult where
  colliding : Bool
  normal : Vec3
  distance : WithTop ℚ
  object : Option Solid
deriving DecidableEq, Repr

/-- Lines 1715-1745: inside a containing (expanded, world-space) box, divide
the offsets from the box center by the box's full extents, pick the axis of
smallest absolute quotient, and return the separation normal (the sign of
that axis's offset) with the penetration value `size/2 - |quotient| * size/2`
of the chosen axis. -/
def leastAxis (bb : Box3) (p : Vec3) : Vec3 × ℚ :=
  let c := bb.center
  let s := bb.size
  let dx := (p.x - c.x) / s.x
  let dy := (p.y - c.y) / s.y
  let dz := (p.z - c.z) / s.z
  if |dx| ≤ |dy| ∧ |dx| ≤ |dz| then
    (⟨mathSign dx, 0, 0⟩, s.x / 2 - |dx| * s.x / 2)
  else if |dy| ≤ |dx| ∧ |dy| ≤ |dz| then
    (⟨0, mathSign dy, 0⟩, s.y / 2 - |dy| * s.y / 2)
  else
    (⟨0, 0, mathSign dz⟩, s.z / 2 - |dz| * s.z / 2)

/-- The loop body of `checkCollisions` for one solid (lines 1680-1755):
broad-phase distance cull, world-space box expansion by the player radius,
containment test, least-penetration axis choice, and the keep-the-closest
update of the running result. -/
def collideStep (position : Vec3) (radius : ℚ) (acc : CollisionResult) (obj : Solid) :
    CollisionResult :=
  match obj.position with
  | none => acc
  | some wp =>
    if dist2 wp position > 25 then acc
    else
      match obj.geomBox with
      | none => acc
      | some gb =>
        let bb := (gb.translate wp).expandByScalar radius
        if bb.containsPoint position then
          let nd := leastAxis bb position
          if (nd.2 : WithTop ℚ) < acc.distance then
            ⟨true, nd.1, (nd.2 : WithTop ℚ), some obj⟩
          else acc
        else acc

/-- Function `checkCollisions(position, radius)` (lines 1657-1759): floor backstop
first (early return with upward normal), then the solids loop.  The empty-list
early return of line 1677 coincides with folding over the empty list. -/
def checkCollisions (solids : List Solid) (position : Vec3) (radius : ℚ) :
    CollisionResult :=
  let playerBottom := position.y - playerHeight / 2
  if playerBottom ≤ floorCollisionBox.bmax.y then
    ⟨true, ⟨0, 1, 0⟩, ((floorCollisionBox.bmax.y - playerBottom : ℚ) : WithTop ℚ), none⟩
  else
    solids.foldl (collideStep position radius) ⟨false, ⟨0, 0, 0⟩, ⊤, none⟩

/-- The result record of `checkGround` (lines 1767-1770). -/
structure GroundResult where
  onGround : Bool
  groundY : ℚ
deriving DecidableEq, Repr

/-- Downward-ray intersection of the probe from `p` with one solid, modelling
`THREE.Raycaster.intersectObjects` over the repository's box meshes: with the
default front-side materials the downward ray can only strike a box's
upward-facing top face, at parameter `p.y - top` when `p` is above the top and
inside the box's xz footprint.  Returns the hit distance. -/
def rayHitDown (p : Vec3) (obj : Solid) : Option ℚ :=
  match obj.position, obj.geomBox with
  | some wp, some gb =>
    let bb := gb.translate wp
    if bb.bmin.x ≤ p.x ∧ p.x ≤ bb.bmax.x ∧ bb.bmin.z ≤ p.z ∧ p.z ≤ bb.bmax.z ∧
        bb.bmax.y ≤ p.y then
      some (p.y - bb.bmax.y)
    else none
  | _, _ => none

/-- The nearest downward hit: `(distance, point.y)` of the closest
intersection, as `intersects[0]` of the raycaster's ascending sort (ties keep
the earlier object, matching a stable sort). -/
def nearestHit (solids : List Solid) (p : Vec3) : Option (ℚ × ℚ) :=
  solids.foldl
    (fun acc obj =>
      match rayHitDown p obj with
      | none => acc
      | some d =>
        match acc with
        | none => some (d, p.y - d)
        | some best => if d < best.1 then some (d, p.y - d) else acc)
    none

/-- Function `checkGround(position)` (lines 1766-1793): the nearest downward
intersection closer than `playerHeight * 0.5 + 0.1` counts as ground at the
intersection height; otherwise the world-floor fallback reports ground at
height 0 exactly when `position.y <= playerHeight`. -/
def checkGround (solids : List Solid) (p : Vec3) : GroundResult :=
  match nearestHit solids p with
  | some hit =>
    if hit.1 < playerHeight * (1/2) + 1/10 then ⟨true, hit.2⟩
    else if p.y ≤ playerHeight then ⟨true, 0⟩ else ⟨false, 0⟩
  | none =>
    if p.y ≤ playerHeight then ⟨true, 0⟩ else ⟨false, 0⟩

/-- The first-person body/camera state read and written by the per-tick update
(the module-level mutable variables of lines 1237-1248 together with
`camera.position` and the camera's yaw).  `rightX`/`rightZ` are the camera's
world right vector, which `PointerLockControls.moveRight`/`moveForward`
translate along (the controls move in the horizontal plane, so only the x/z
components matter; mouse look sets them). -/
structure PlayerState where
  pos : Vec3
  velX : ℚ
  velZ : ℚ
  jumpVelocity : ℚ
  isJumping : Bool
  canJump : Bool
  rightX : ℚ
  rightZ : ℚ
deriving DecidableEq, Repr

/-- The level-triggered movement-intent flags (lines 1238-1241). -/
structure Inputs where
  moveForward : Bool
  moveBackward : Bool
  moveLeft : Bool
  moveRight : Bool
deriving DecidableEq, Repr

/-- Mirrors `Number(flag)`. -/
def boolQ (b : Bool) : ℚ := if b then 1 else 0

/-- Lines 1812-1818: while jumping, integrate the vertical position by the
jump velocity, then apply gravity to the jump velocity. -/
def applyVertical (dt : ℚ) (s : PlayerState) : PlayerState :=
  if s.isJumping then
    { s with pos := ⟨s.pos.x, s.pos.y + s.jumpVelocity * dt, s.pos.z⟩,
             jumpVelocity := s.jumpVelocity - gravity * dt }
  else s

/-- Lines 1833-1839: landing — while jumping, on ground, with non-positive
jump velocity, snap to `groundY + playerHeight`, zero the jump velocity, stop
jumping and re-arm the jump. -/
def applyLanding (g : GroundResult) (s : PlayerState) : PlayerState :=
  if s.isJumping ∧ g.onGround ∧ s.jumpVelocity ≤ 0 then
    { s with pos := ⟨s.pos.x, g.groundY + playerHeight, s.pos.z⟩,
             jumpVelocity := 0, isJumping := false, canJump := true }
  else s

/-- Lines 1841-1846: not jumping and not on ground — start free fall with
zero initial velocity and disarm the jump. -/
def applyFallStart (g : GroundResult) (s : PlayerState) : PlayerState :=
  if ¬s.isJumping ∧ ¬g.onGround then
    { s with isJumping := true, jumpVelocity := 0, canJump := false }
  else s

/-- Lines 1848-1854: the emergency minimum-height clamp. -/
def applyFloorClamp (s : PlayerState) : PlayerState :=
  if s.pos.y < playerHeight then
    { s with pos := ⟨s.pos.x, playerHeight, s.pos.z⟩,
             isJumping := false, jumpVelocity := 0, canJump := true }
  else s

/-- Lines 1856-1869: damp the horizontal velocity, add the (normalized)
movement-direction impulse, and translate via
`controls.moveRight(-velocity.x * delta)` / `controls.moveForward(-velocity.z
* delta)`.  `PointerLockControls` moves along the camera right vector `r =
(rightX, 0, rightZ)` and along `up × r = (rightZ, 0, -rightX)`.
`direction.normalize()` leaves the zero and single-axis direction vectors
unchanged (`THREE` divides by `length() || 1`) and scales a diagonal one by
`1/√2`, an irrational whose host floating-point value is the `invSqrt2`
parameter. -/
def applyHorizontal (invSqrt2 : ℚ) (inp : Inputs) (dt : ℚ) (s : PlayerState) :
    PlayerState :=
  let vx := s.velX - s.velX * 10 * dt
  let vz := s.velZ - s.velZ * 10 * dt
  let dirZ := boolQ inp.moveForward - boolQ inp.moveBackward
  let dirX := boolQ inp.moveRight - boolQ inp.moveLeft
  let ndirX := if dirX ≠ 0 ∧ dirZ ≠ 0 then dirX * invSqrt2 else dirX
  let ndirZ := if dirX ≠ 0 ∧ dirZ ≠ 0 then dirZ * invSqrt2 else dirZ
  let vz' := if inp.moveForward ∨ inp.moveBackward then vz - ndirZ * 20 * dt else vz
  let vx' := if inp.moveLeft ∨ inp.moveRight then vx - ndirX * 20 * dt else vx
  { s with
    pos := ⟨s.pos.x + s.rightX * (-vx' * dt) + s.rightZ * (-vz' * dt),
            s.pos.y,
            s.pos.z + s.rightZ * (-vx' * dt) + (-s.rightX) * (-vz' * dt)⟩,
    velX := vx', velZ := vz' }

/-- Lines 1871-1885: query `checkCollisions` at the moved position; on a hit,
add `normal * (distance + 0.01)` to the position and zero the x/z velocity
components on the normal's non-zero axes.  A reported collision always
carries a finite distance, extracted with `untop' 0`. -/
def applyCollision (solids : List Solid) (s : PlayerState) : PlayerState :=
  let col := checkCollisions solids s.pos playerRadius
  if col.colliding then
    let d := col.distance.untop' 0 + 1/100
    { s with
      pos := ⟨s.pos.x + col.normal.x * d, s.pos.y + col.normal.y * d,
              s.pos.z + col.normal.z * d⟩,
      velX := if col.normal.x ≠ 0 then 0 else s.velX,
      velZ := if col.normal.z ≠ 0 then 0 else s.velZ }
  else s

/-- The tick up to (but excluding) the final collision correction: vertical
integration, ground check at the integrated position, landing, fall start,
minimum-height clamp, and horizontal movement — in the source's order
(lines 1807-1869). -/
def preCollide (invSqrt2 : ℚ) (solids : List Solid) (inp : Inputs) (dt : ℚ)
    (s : PlayerState) : PlayerState :=
  let s1 := applyVertical dt s
  let g := checkGround solids s1.pos
  let s2 := applyLanding g s1
  let s3 := applyFallStart g s2
  let s4 := applyFloorClamp s3
  applyHorizontal invSqrt2 inp dt s4

/-- One first-person tick of `animate` (lines 1807-1886, the
`controls.isLocked` branch): `preCollide` followed by the collision
correction of lines 1871-1885. -/
def tick (invSqrt2 : ℚ) (solids : List Solid) (inp : Inputs) (dt : ℚ)
    (s : PlayerState) : PlayerState :=
  applyCollision solids (preCollide invSqrt2 solids inp dt s)

/-- The jump-relevant slice of state seen by the Space `keydown` handler, with
a real-valued jump velocity so the handler's `Math.sqrt` is exact. -/
structure JumpKeyState where
  canJump : Bool
  isJumping : Bool
  jumpVelocity : ℝ

/-- The `case 'Space'` branch of the `keydown` listener (lines 1282-1288):
only when `canJump`, set the jump velocity to `Math.sqrt (2 * gravity *
jumpHeight)`, start jumping, and clear `canJump`; otherwise do nothing. -/
noncomputable def spaceKeydown (s : JumpKeyState) : JumpKeyState :=
  if s.canJump then
    ⟨false, true, Real.sqrt (2 * (gravity : ℝ) * (jumpHeight : ℝ))⟩
  else s

/-- The mode / camera-control state of the view-mode machine: the
`overviewMode` flag (line 1499), pointer-lock state, the orbit controls'
enabled flag and target, the camera position, and the instructions panel
visibility.  (`camera.lookAt` changes only orientation and is not part of the
observable pose modelled here.) -/
structure ModeState where
  overviewMode : Bool
  locked : Bool
  orbitEnabled : Bool
  instructionsHidden : Bool
  cameraPos : Vec3
  orbitTarget : Vec3
deriving DecidableEq, Repr

/-- A preset viewpoint (lines 1553-1559): a camera position and look target. -/
structure Viewpoint where
  vpos : Vec3
  vtarget : Vec3
deriving DecidableEq, Repr

/-- The `viewModeButton` click handler (lines 1500-1515): flip `overviewMode`;
on entering overview, unlock the pointer, enable orbit controls, snap the
camera to `(0, 15, 0)` and hide the instructions; on entering first person,
disable orbit controls and show the instructions. -/
def toggleViewMode (s : ModeState) : ModeState :=
  if ¬s.overviewMode then
    { s with overviewMode := true, locked := false, orbitEnabled := true,
             cameraPos := ⟨0, 15, 0⟩, instructionsHidden := true }
  else
    { s with overviewMode := false, orbitEnabled := false,
             instructionsHidden := false }

/-- A viewpoint button's click handler (lines 1581-1596): enter overview mode
(idempotently — it assigns rather than toggles), unlock, enable orbit
controls, snap the camera to the viewpoint and retarget the orbit controls,
hide the instructions. -/
def selectViewpoint (v : Viewpoint) (s : ModeState) : ModeState :=
  { s with overviewMode := true, locked := false, orbitEnabled := true,
           cameraPos := v.vpos, orbitTarget := v.vtarget,
           instructionsHidden := true }

/-- The document click handler (lines 1229-1232): in first-person mode, a
click (re-)acquires pointer lock; when already locked, or in overview mode,
it does nothing. -/
def clickToLock (s : ModeState) : ModeState :=
  if ¬s.locked ∧ ¬s.overviewMode then { s with locked := true } else s

/-- Modelled from the claim's words, not from the source: the penetration
distance the spec describes, `halfExtent * (1 - |offset / halfExtent|)`,
with the offset normalized by the half-extent.  Compared against the
source's computation, which normalizes by the full extent. -/
def claimedPenetration (halfExtent offs : ℚ) : ℚ :=
  halfExtent * (1 - |offs / halfExtent|)

/- ------------------------------------------------------------------
Helper lemmas shared by several claims.
------------------------------------------------------------------ -/

theorem interval_abs_half (lo hi t : ℚ) (h1 : lo ≤ t) (h2 : t ≤ hi) :
    0 ≤ hi - lo ∧ |t - (lo + hi) / 2| ≤ (hi - lo) / 2 := by
  refine ⟨by linarith, ?_⟩
  rw [abs_le]
  constructor <;> linarith

/-- Containment bounds each coordinate's offset from the box center by half
the box's extent, and makes every extent nonnegative. -/
theorem containsPoint_bounds (b : Box3) (p : Vec3) (h : b.containsPoint p) :
    (0 ≤ b.size.x ∧ |p.x - b.center.x| ≤ b.size.x / 2) ∧
    (0 ≤ b.size.y ∧ |p.y - b.center.y| ≤ b.size.y / 2) ∧
    (0 ≤ b.size.z ∧ |p.z - b.center.z| ≤ b.size.z / 2) := by
  obtain ⟨h1, h2, h3, h4, h5, h6⟩ := h
  unfold Box3.size Box3.center
  exact ⟨interval_abs_half _ _ _ h1 h2, interval_abs_half _ _ _ h3 h4,
    interval_abs_half _ _ _ h5 h6⟩

/-- The per-axis penetration value the source computes,
`s/2 - |o/s| * s/2`, equals `s/2 - |o|/2` and is nonnegative whenever the
offset fits inside the half-extent. -/
theorem penet_eq_nonneg (s o : ℚ) (hs : 0 ≤ s) (ho : |o| ≤ s / 2) :
    s / 2 - |o / s| * s / 2 = s / 2 - |o| / 2 ∧ 0 ≤ s / 2 - |o| / 2 := by
  rcases eq_or_lt_of_le hs with h | h
  · have ho0 : o = 0 := by
      have : |o| ≤ 0 := by linarith
      exact abs_eq_zero.mp (le_antisymm this (abs_nonneg o))
    subst ho0
    rw [← h]
    norm_num
  · have hne : s ≠ 0 := ne_of_gt h
    have habs : |o / s| = |o| / s := by
      rw [abs_div, abs_of_pos h]
    constructor
    · rw [habs]
      field_simp
    · have : |o| / 2 ≤ s / 4 := by linarith
      linarith

/-- Lemma: `Math.sign` commutes with division by a positive extent. -/
theorem mathSign_div (o s : ℚ) (hs : 0 < s) : mathSign (o / s) = mathSign o := by
  rcases lt_trichotomy 0 o with ho | ho | ho
  · rw [mathSign, if_pos (div_pos ho hs), mathSign, if_pos ho]
  · rw [← ho]
    simp [mathSign]
  · have hneg : o / s < 0 := div_neg_of_neg_of_pos ho hs
    rw [mathSign, if_neg (by linarith), if_pos hneg,
      mathSign, if_neg (by linarith), if_pos ho]

/-- Inside a containing box the chosen axis's penetration value is never
negative. -/
theorem leastAxis_nonneg (bb : Box3) (p : Vec3) (h : bb.containsPoint p) :
    0 ≤ (leastAxis bb p).2 := by
  obtain ⟨⟨hsx, hox⟩, ⟨hsy, hoy⟩, ⟨hsz, hoz⟩⟩ := containsPoint_bounds _ _ h
  rw [leastAxis]
  split_ifs
  · exact le_of_le_of_eq (penet_eq_nonneg _ _ hsx hox).2
      (penet_eq_nonneg _ _ hsx hox).1.symm
  · exact le_of_le_of_eq (penet_eq_nonneg _ _ hsy hoy).2
      (penet_eq_nonneg _ _ hsy hoy).1.symm
  · exact le_of_le_of_eq (penet_eq_nonneg _ _ hsz hoz).2
      (penet_eq_nonneg _ _ hsz hoz).1.symm

/-- One solids-loop step never drives the running best distance negative. -/
theorem collideStep_untop_nonneg (p : Vec3) (r : ℚ) (acc : CollisionResult)
    (obj : Solid) (h : 0 ≤ acc.distance.untop' 0) :
    0 ≤ (collideStep p r acc obj).distance.untop' 0 := by
  obtain ⟨pos?, box?⟩ := obj
  cases pos? with
  | none => exact h
  | some wp =>
    cases box? with
    | none =>
      simp only [collideStep]
      split <;> exact h
    | some gb =>
      simp only [collideStep]
      split
      · exact h
      · split
        · next hcont =>
          split
          · rw [WithTop.untop'_coe]
            exact leastAxis_nonneg _ _ hcont
          · exact h
        · exact h

/-- Folding the solids loop preserves a nonnegative best distance. -/
theorem foldl_untop_nonneg (p : Vec3) (r : ℚ) (sol : List Solid) :
    ∀ acc : CollisionResult, 0 ≤ acc.distance.untop' 0 →
      0 ≤ (sol.foldl (collideStep p r) acc).distance.untop' 0 := by
  induction sol with
  | nil => intro acc h; simpa using h
  | cons a l ih =>
    intro acc h
    exact ih _ (collideStep_untop_nonneg _ _ _ _ h)

/-- The resolver's reported distance (0 when none was reported) is never
negative. -/
theorem checkCollisions_untop_nonneg (sol : List Solid) (p : Vec3) (r : ℚ) :
    0 ≤ (checkCollisions sol p r).distance.untop' 0 := by
  rw [checkCollisions]
  split
  · next hf =>
    rw [WithTop.untop'_coe]
    simp only [floorCollisionBox] at hf ⊢
    linarith
  · exact foldl_untop_nonneg _ _ _ _ (by simp)

/-- Dividing by a nonnegative extent that bounds the offset's double keeps
the sign (the degenerate zero-extent case forces a zero offset). -/
theorem mathSign_div_bounded (o s : ℚ) (hs : 0 ≤ s) (ho : |o| ≤ s / 2) :
    mathSign (o / s) = mathSign o := by
  rcases eq_or_lt_of_le hs with h | h
  · have ho0 : o = 0 := by
      have h1 : |o| ≤ 0 := by
        rw [← h] at ho
        linarith
      exact abs_eq_zero.mp (le_antisymm h1 (abs_nonneg o))
    subst ho0
    rw [zero_div]
  · exact mathSign_div o s h

/-- Characterization of `leastAxis` on a containing box: per selected branch,
the normal is the sign of the raw offset and the penetration value equals
`halfExtent - |offset| / 2` of the chosen axis. -/
theorem leastAxis_spec (bb : Box3) (p : Vec3) (h : bb.containsPoint p) :
    ((|(p.x - bb.center.x) / bb.size.x| ≤ |(p.y - bb.center.y) / bb.size.y| ∧
      |(p.x - bb.center.x) / bb.size.x| ≤ |(p.z - bb.center.z) / bb.size.z|) →
      leastAxis bb p = (⟨mathSign (p.x - bb.center.x), 0, 0⟩,
        bb.size.x / 2 - |p.x - bb.center.x| / 2)) ∧
    (¬(|(p.x - bb.center.x) / bb.size.x| ≤ |(p.y - bb.center.y) / bb.size.y| ∧
       |(p.x - bb.center.x) / bb.size.x| ≤ |(p.z - bb.center.z) / bb.size.z|) →
     (|(p.y - bb.center.y) / bb.size.y| ≤ |(p.x - bb.center.x) / bb.size.x| ∧
      |(p.y - bb.center.y) / bb.size.y| ≤ |(p.z - bb.center.z) / bb.size.z|) →
      leastAxis bb p = (⟨0, mathSign (p.y - bb.center.y), 0⟩,
        bb.size.y / 2 - |p.y - bb.center.y| / 2)) ∧
    (¬(|(p.x - bb.center.x) / bb.size.x| ≤ |(p.y - bb.center.y) / bb.size.y| ∧
       |(p.x - bb.center.x) / bb.size.x| ≤ |(p.z - bb.center.z) / bb.size.z|) →
     ¬(|(p.y - bb.center.y) / bb.size.y| ≤ |(p.x - bb.center.x) / bb.size.x| ∧
       |(p.y - bb.center.y) / bb.size.y| ≤ |(p.z - bb.center.z) / bb.size.z|) →
      leastAxis bb p = (⟨0, 0, mathSign (p.z - bb.center.z)⟩,
        bb.size.z / 2 - |p.z - bb.center.z| / 2)) := by
  obtain ⟨⟨hsx, hox⟩, ⟨hsy, hoy⟩, ⟨hsz, hoz⟩⟩ := containsPoint_bounds _ _ h
  rw [leastAxis]
  refine ⟨fun hx => ?_, fun hx hy => ?_, fun hx hy => ?_⟩
  · rw [if_pos hx, mathSign_div_bounded _ _ hsx hox,
      (penet_eq_nonneg _ _ hsx hox).1]
  · rw [if_neg hx, if_pos hy, mathSign_div_bounded _ _ hsy hoy,
      (penet_eq_nonneg _ _ hsy hoy).1]
  · rw [if_neg hx, if_neg hy, mathSign_div_bounded _ _ hsz hoz,
      (penet_eq_nonneg _ _ hsz hoz).1]

/-- The horizontal-movement step never changes the height. -/
theorem applyHorizontal_pos_y (inv : ℚ) (inp : Inputs) (dt : ℚ) (s : PlayerState) :
    (applyHorizontal inv inp dt s).pos.y = s.pos.y := rfl

/-- After the emergency clamp the height is at least `playerHeight`. -/
theorem applyFloorClamp_ge (s : PlayerState) :
    playerHeight ≤ (applyFloorClamp s).pos.y := by
  rw [applyFloorClamp]
  split_ifs with h
  · exact le_refl _
  · exact not_lt.mp h

/-- Every tick's pre-collision state satisfies the height floor: the clamp
runs before the horizontal move, which leaves the height unchanged. -/
theorem preCollide_pos_y_ge (inv : ℚ) (sol : List Solid) (inp : Inputs) (dt : ℚ)
    (s : PlayerState) : playerHeight ≤ (preCollide inv sol inp dt s).pos.y := by
  dsimp only [preCollide]
  rw [applyHorizontal_pos_y]
  exact applyFloorClamp_ge _

/-- C1, amended.  After the minimum-height enforcement step of each
first-person tick, `position.y ≥ standingHeight` holds and persists through
the horizontal move; and whenever the post-movement collision correction
reports no collision or a separation normal with nonnegative y-component,
the tick's final position still satisfies `position.y ≥ standingHeight`.
(The original claim fails: a collision normal with negative y-component runs
after the clamp and can leave the body below the minimum height; see the
counterexample.) -/
theorem floor_invariant_amended (inv : ℚ) (sol : List Solid) (inp : Inputs)
    (dt : ℚ) (s : PlayerState)
    (h : 0 ≤ (checkCollisions sol (preCollide inv sol inp dt s).pos
        playerRadius).normal.y) :
    playerHeight ≤ (preCollide inv sol inp dt s).pos.y ∧
    playerHeight ≤ (tick inv sol inp dt s).pos.y := by
  have h5 := preCollide_pos_y_ge inv sol inp dt s
  refine ⟨h5, ?_⟩
  have hd := checkCollisions_untop_nonneg sol (preCollide inv sol inp dt s).pos
    playerRadius
  rw [tick, applyCollision]
  dsimp only
  by_cases hc : (checkCollisions sol (preCollide inv sol inp dt s).pos
      playerRadius).colliding = true
  · rw [if_pos hc]
    have hmul : 0 ≤ (checkCollisions sol (preCollide inv sol inp dt s).pos
        playerRadius).normal.y *
        ((checkCollisions sol (preCollide inv sol inp dt s).pos
          playerRadius).distance.untop' 0 + 1 / 100) :=
      mul_nonneg h (by linarith)
    dsimp only
    linarith
  · rw [if_neg hc]
    exact h5

/-- C1 witness: a concrete no-obstacle tick in which the collision normal's
y-component is nonnegative and the floor holds after the tick. -/
theorem floor_invariant_amended_witness :
    0 ≤ (checkCollisions []
        (preCollide (7071067811865476 / 10000000000000000) []
          ⟨false, false, false, false⟩ (1 / 100)
          ⟨⟨0, 8/5, 0⟩, 0, 0, 0, false, true, 1, 0⟩).pos playerRadius).normal.y ∧
    playerHeight ≤ (tick (7071067811865476 / 10000000000000000) []
        ⟨false, false, false, false⟩ (1 / 100)
        ⟨⟨0, 8/5, 0⟩, 0, 0, 0, false, true, 1, 0⟩).pos.y :=
  ⟨by norm_num [tick, preCollide, applyVertical, applyLanding, applyFallStart,
    applyFloorClamp, applyHorizontal, applyCollision, checkCollisions,
    collideStep, leastAxis, checkGround, nearestHit, rayHitDown,
    Box3.containsPoint, Box3.center, Box3.size, Box3.expandByScalar,
    Box3.translate, dist2, mathSign, boolQ, gravity, jumpHeight,
    playerHeight, playerRadius, floorCollisionBox, abs_of_nonneg, abs_of_nonpos],
    (floor_invariant_amended (7071067811865476 / 10000000000000000) []
      ⟨false, false, false, false⟩ (1 / 100)
      ⟨⟨0, 8/5, 0⟩, 0, 0, 0, false, true, 1, 0⟩
      (by norm_num [tick, preCollide, applyVertical, applyLanding, applyFallStart,
    applyFloorClamp, applyHorizontal, applyCollision, checkCollisions,
    collideStep, leastAxis, checkGround, nearestHit, rayHitDown,
    Box3.containsPoint, Box3.center, Box3.size, Box3.expandByScalar,
    Box3.translate, dist2, mathSign, boolQ, gravity, jumpHeight,
    playerHeight, playerRadius, floorCollisionBox, abs_of_nonneg, abs_of_nonpos])).2⟩

/-- C1 counterexample: a body standing at the legal height inside a tall
box's radius-expanded bound is pushed down by the collision correction (the
least-penetration axis is y, pointing down), and the tick ends with
`position.y = 0.49 < 1.6`, violating the claimed absolute floor. -/
theorem floor_invariant_cex :
    (tick (7071067811865476 / 10000000000000000)
        [⟨some ⟨0, 2, 0⟩, some ⟨⟨-1, -1, -1⟩, ⟨1, 1, 1⟩⟩⟩]
        ⟨false, false, false, false⟩ (1 / 100)
        ⟨⟨1/2, 8/5, 1/2⟩, 0, 0, 0, false, true, 1, 0⟩).pos.y < playerHeight := by
  norm_num [tick, preCollide, applyVertical, applyLanding, applyFallStart,
    applyFloorClamp, applyHorizontal, applyCollision, checkCollisions,
    collideStep, leastAxis, checkGround, nearestHit, rayHitDown,
    Box3.containsPoint, Box3.center, Box3.size, Box3.expandByScalar,
    Box3.translate, dist2, mathSign, boolQ, gravity, jumpHeight,
    playerHeight, playerRadius, floorCollisionBox, abs_of_nonneg, abs_of_nonpos]

/-- C3, amended.  After a reported collision the controller adds
`normal * (penetrationDistance + 0.01)` to the position and zeroes
`velocity.x` exactly when `normal.x ≠ 0` and `velocity.z` exactly when
`normal.z ≠ 0`; the vertical velocity is never modified by the correction,
even when the normal's y-component is non-zero (see the counterexample). -/
theorem collision_correction_amended (sol : List Solid) (s : PlayerState) :
    (applyCollision sol s).jumpVelocity = s.jumpVelocity ∧
    ((checkCollisions sol s.pos playerRadius).colliding = true →
      applyCollision sol s =
        { s with
          pos := ⟨s.pos.x + (checkCollisions sol s.pos playerRadius).normal.x *
                    ((checkCollisions sol s.pos playerRadius).distance.untop' 0
                      + 1/100),
                  s.pos.y + (checkCollisions sol s.pos playerRadius).normal.y *
                    ((checkCollisions sol s.pos playerRadius).distance.untop' 0
                      + 1/100),
                  s.pos.z + (checkCollisions sol s.pos playerRadius).normal.z *
                    ((checkCollisions sol s.pos playerRadius).distance.untop' 0
                      + 1/100)⟩,
          velX := if (checkCollisions sol s.pos playerRadius).normal.x ≠ 0 then 0
                  else s.velX,
          velZ := if (checkCollisions sol s.pos playerRadius).normal.z ≠ 0 then 0
                  else s.velZ }) := by
  constructor
  · rw [applyCollision]
    dsimp only
    split_ifs <;> rfl
  · intro hc
    rw [applyCollision]
    dsimp only
    rw [if_pos hc]

/-- C3 witness: the correction applied concretely — position moved along the
normal by `distance + 0.01`, x/z velocities kept (the normal is vertical),
vertical velocity untouched. -/
theorem collision_correction_amended_witness :
    applyCollision [⟨some ⟨0, 2, 0⟩, some ⟨⟨-1, -1, -1⟩, ⟨1, 1, 1⟩⟩⟩]
        ⟨⟨1/2, 8/5, 1/2⟩, 2, 0, 3, false, true, 1, 0⟩ =
      ⟨⟨1/2, 49/100, 1/2⟩, 2, 0, 3, false, true, 1, 0⟩ := by
  have h := (collision_correction_amended
    [⟨some ⟨0, 2, 0⟩, some ⟨⟨-1, -1, -1⟩, ⟨1, 1, 1⟩⟩⟩]
    ⟨⟨1/2, 8/5, 1/2⟩, 2, 0, 3, false, true, 1, 0⟩).2
    (by norm_num [tick, preCollide, applyVertical, applyLanding, applyFallStart,
    applyFloorClamp, applyHorizontal, applyCollision, checkCollisions,
    collideStep, leastAxis, checkGround, nearestHit, rayHitDown,
    Box3.containsPoint, Box3.center, Box3.size, Box3.expandByScalar,
    Box3.translate, dist2, mathSign, boolQ, gravity, jumpHeight,
    playerHeight, playerRadius, floorCollisionBox, abs_of_nonneg, abs_of_nonpos])
  refine h.trans ?_
  norm_num [tick, preCollide, applyVertical, applyLanding, applyFallStart,
    applyFloorClamp, applyHorizontal, applyCollision, checkCollisions,
    collideStep, leastAxis, checkGround, nearestHit, rayHitDown,
    Box3.containsPoint, Box3.center, Box3.size, Box3.expandByScalar,
    Box3.translate, dist2, mathSign, boolQ, gravity, jumpHeight,
    playerHeight, playerRadius, floorCollisionBox, abs_of_nonneg, abs_of_nonpos]

/-- C3 counterexample: a collision whose normal has non-zero y-component
leaves the vertical velocity unchanged (3, not 0), contradicting the claim
that every velocity component aligned with a non-zero normal axis is
zeroed. -/
theorem collision_correction_cex :
    (checkCollisions [⟨some ⟨0, 2, 0⟩, some ⟨⟨-1, -1, -1⟩, ⟨1, 1, 1⟩⟩⟩]
        ⟨1/2, 8/5, 1/2⟩ playerRadius).normal.y ≠ 0 ∧
    (applyCollision [⟨some ⟨0, 2, 0⟩, some ⟨⟨-1, -1, -1⟩, ⟨1, 1, 1⟩⟩⟩]
        ⟨⟨1/2, 8/5, 1/2⟩, 2, 0, 3, false, true, 1, 0⟩).jumpVelocity ≠ 0 := by
  constructor <;>
  norm_num [tick, preCollide, applyVertical, applyLanding, applyFallStart,
    applyFloorClamp, applyHorizontal, applyCollision, checkCollisions,
    collideStep, leastAxis, checkGround, nearestHit, rayHitDown,
    Box3.containsPoint, Box3.center, Box3.size, Box3.expandByScalar,
    Box3.translate, dist2, mathSign, boolQ, gravity, jumpHeight,
    playerHeight, playerRadius, floorCollisionBox, abs_of_nonneg, abs_of_nonpos]

/-- Evaluating the resolver on a single in-range, containing solid: the floor
backstop is skipped, the solid passes the broad phase, and the loop commits
the `leastAxis` result (its distance is finite, hence below the initial
`Infinity`). -/
theorem checkCollisions_single (wp : Vec3) (gb : Box3) (p : Vec3) (r : ℚ)
    (hfloor : floorCollisionBox.bmax.y < p.y - playerHeight / 2)
    (hnear : dist2 wp p ≤ 25)
    (hcont : ((gb.translate wp).expandByScalar r).containsPoint p) :
    checkCollisions [⟨some wp, some gb⟩] p r =
      ⟨true, (leastAxis ((gb.translate wp).expandByScalar r) p).1,
        ((leastAxis ((gb.translate wp).expandByScalar r) p).2 : WithTop ℚ),
        some ⟨some wp, some gb⟩⟩ := by
  rw [checkCollisions]
  rw [if_neg (not_le.mpr hfloor)]
  simp only [List.foldl_cons, List.foldl_nil, collideStep]
  rw [if_neg (not_lt.mpr hnear), if_pos hcont, if_pos (WithTop.coe_lt_top _)]

/-- C2, amended.  The resolver normalizes the offsets from the expanded box's
center by the box's full extents (`size`), not by the half-extents; it picks
the axis of smallest absolute quotient, the normal is the sign of that
axis's raw offset, and the reported penetration distance equals
`halfExtent_axis - |offset_axis| / 2`.  Consequently the distance does not
tend to 0 at the expanded box's boundary: when the chosen axis's offset
reaches the half-extent the reported distance is `halfExtent_axis / 2`,
still positive for a non-degenerate box. -/
theorem resolver_distance_amended (wp : Vec3) (gb : Box3) (p : Vec3) (r : ℚ)
    (hfloor : floorCollisionBox.bmax.y < p.y - playerHeight / 2)
    (hnear : dist2 wp p ≤ 25)
    (hcont : ((gb.translate wp).expandByScalar r).containsPoint p) :
    (checkCollisions [⟨some wp, some gb⟩] p r).colliding = true ∧
    (checkCollisions [⟨some wp, some gb⟩] p r).object = some ⟨some wp, some gb⟩ ∧
    ((|(p.x - ((gb.translate wp).expandByScalar r).center.x) /
        ((gb.translate wp).expandByScalar r).size.x| ≤
      |(p.y - ((gb.translate wp).expandByScalar r).center.y) /
        ((gb.translate wp).expandByScalar r).size.y| ∧
      |(p.x - ((gb.translate wp).expandByScalar r).center.x) /
        ((gb.translate wp).expandByScalar r).size.x| ≤
      |(p.z - ((gb.translate wp).expandByScalar r).center.z) /
        ((gb.translate wp).expandByScalar r).size.z|) →
      (checkCollisions [⟨some wp, some gb⟩] p r).normal =
        ⟨mathSign (p.x - ((gb.translate wp).expandByScalar r).center.x), 0, 0⟩ ∧
      (checkCollisions [⟨some wp, some gb⟩] p r).distance =
        (((((gb.translate wp).expandByScalar r).size.x / 2 -
          |p.x - ((gb.translate wp).expandByScalar r).center.x| / 2 : ℚ) :
          WithTop ℚ)) ∧
      (|p.x - ((gb.translate wp).expandByScalar r).center.x| =
          ((gb.translate wp).expandByScalar r).size.x / 2 →
       0 < ((gb.translate wp).expandByScalar r).size.x →
        (checkCollisions [⟨some wp, some gb⟩] p r).distance =
          (((((gb.translate wp).expandByScalar r).size.x / 4 : ℚ)) : WithTop ℚ) ∧
        (0 : ℚ) < ((gb.translate wp).expandByScalar r).size.x / 4)) ∧
    (¬(|(p.x - ((gb.translate wp).expandByScalar r).center.x) /
        ((gb.translate wp).expandByScalar r).size.x| ≤
      |(p.y - ((gb.translate wp).expandByScalar r).center.y) /
        ((gb.translate wp).expandByScalar r).size.y| ∧
      |(p.x - ((gb.translate wp).expandByScalar r).center.x) /
        ((gb.translate wp).expandByScalar r).size.x| ≤
      |(p.z - ((gb.translate wp).expandByScalar r).center.z) /
        ((gb.translate wp).expandByScalar r).size.z|) →
     (|(p.y - ((gb.translate wp).expandByScalar r).center.y) /
        ((gb.translate wp).expandByScalar r).size.y| ≤
      |(p.x - ((gb.translate wp).expandByScalar r).center.x) /
        ((gb.translate wp).expandByScalar r).size.x| ∧
      |(p.y - ((gb.translate wp).expandByScalar r).center.y) /
        ((gb.translate wp).expandByScalar r).size.y| ≤
      |(p.z - ((gb.translate wp).expandByScalar r).center.z) /
        ((gb.translate wp).expandByScalar r).size.z|) →
      (checkCollisions [⟨some wp, some gb⟩] p r).normal =
        ⟨0, mathSign (p.y - ((gb.translate wp).expandByScalar r).center.y), 0⟩ ∧
      (checkCollisions [⟨some wp, some gb⟩] p r).distance =
        (((((gb.translate wp).expandByScalar r).size.y / 2 -
          |p.y - ((gb.translate wp).expandByScalar r).center.y| / 2 : ℚ) :
          WithTop ℚ)) ∧
      (|p.y - ((gb.translate wp).expandByScalar r).center.y| =
          ((gb.translate wp).expandByScalar r).size.y / 2 →
       0 < ((gb.translate wp).expandByScalar r).size.y →
        (checkCollisions [⟨some wp, some gb⟩] p r).distance =
          (((((gb.translate wp).expandByScalar r).size.y / 4 : ℚ)) : WithTop ℚ) ∧
        (0 : ℚ) < ((gb.translate wp).expandByScalar r).size.y / 4)) ∧
    (¬(|(p.x - ((gb.translate wp).expandByScalar r).center.x) /
        ((gb.translate wp).expandByScalar r).size.x| ≤
      |(p.y - ((gb.translate wp).expandByScalar r).center.y) /
        ((gb.translate wp).expandByScalar r).size.y| ∧
      |(p.x - ((gb.translate wp).expandByScalar r).center.x) /
        ((gb.translate wp).expandByScalar r).size.x| ≤
      |(p.z - ((gb.translate wp).expandByScalar r).center.z) /
        ((gb.translate wp).expandByScalar r).size.z|) →
     ¬(|(p.y - ((gb.translate wp).expandByScalar r).center.y) /
        ((gb.translate wp).expandByScalar r).size.y| ≤
      |(p.x - ((gb.translate wp).expandByScalar r).center.x) /
        ((gb.translate wp).expandByScalar r).size.x| ∧
      |(p.y - ((gb.translate wp).expandByScalar r).center.y) /
        ((gb.translate wp).expandByScalar r).size.y| ≤
      |(p.z - ((gb.translate wp).expandByScalar r).center.z) /
        ((gb.translate wp).expandByScalar r).size.z|) →
      (checkCollisions [⟨some wp, some gb⟩] p r).normal =
        ⟨0, 0, mathSign (p.z - ((gb.translate wp).expandByScalar r).center.z)⟩ ∧
      (checkCollisions [⟨some wp, some gb⟩] p r).distance =
        (((((gb.translate wp).expandByScalar r).size.z / 2 -
          |p.z - ((gb.translate wp).expandByScalar r).center.z| / 2 : ℚ) :
          WithTop ℚ)) ∧
      (|p.z - ((gb.translate wp).expandByScalar r).center.z| =
          ((gb.translate wp).expandByScalar r).size.z / 2 →
       0 < ((gb.translate wp).expandByScalar r).size.z →
        (checkCollisions [⟨some wp, some gb⟩] p r).distance =
          (((((gb.translate wp).expandByScalar r).size.z / 4 : ℚ)) : WithTop ℚ) ∧
        (0 : ℚ) < ((gb.translate wp).expandByScalar r).size.z / 4)) := by
  have hsingle := checkCollisions_single wp gb p r hfloor hnear hcont
  have hspec := leastAxis_spec ((gb.translate wp).expandByScalar r) p hcont
  refine ⟨by rw [hsingle], by rw [hsingle], fun hx => ?_, fun hx hy => ?_,
    fun hx hy => ?_⟩
  · rw [hsingle, hspec.1 hx]
    refine ⟨rfl, rfl, fun hb hpos => ?_⟩
    dsimp only
    rw [hb]
    refine ⟨?_, by linarith⟩
    rw [WithTop.coe_inj]
    ring
  · rw [hsingle, hspec.2.1 hx hy]
    refine ⟨rfl, rfl, fun hb hpos => ?_⟩
    dsimp only
    rw [hb]
    refine ⟨?_, by linarith⟩
    rw [WithTop.coe_inj]
    ring
  · rw [hsingle, hspec.2.2 hx hy]
    refine ⟨rfl, rfl, fun hb hpos => ?_⟩
    dsimp only
    rw [hb]
    refine ⟨?_, by linarith⟩
    rw [WithTop.coe_inj]
    ring

/-- C2 witness: the cube of half-extent 0.7 at `(1,1,1)`, radius 0.3 (the
expanded box is `[0,2]^3`), probed twice.  At the corner `(2,2,2)` the x
branch is selected, the normal is `(+1,0,0)`, and at the boundary the
reported distance is `halfExtent/2 = 1/2`, not 0.  At `(1.9, 1.7, 1.5)` the
z branch is selected, the normal is `(0,0,+1)`, and the distance is
`halfExtent - |offset|/2 = 3/4`. -/
theorem resolver_distance_amended_witness :
    (checkCollisions [⟨some ⟨1, 1, 1⟩, some ⟨⟨-7/10, -7/10, -7/10⟩,
        ⟨7/10, 7/10, 7/10⟩⟩⟩] ⟨2, 2, 2⟩ (3/10)).normal = ⟨1, 0, 0⟩ ∧
    (checkCollisions [⟨some ⟨1, 1, 1⟩, some ⟨⟨-7/10, -7/10, -7/10⟩,
        ⟨7/10, 7/10, 7/10⟩⟩⟩] ⟨2, 2, 2⟩ (3/10)).distance =
      ((1/2 : ℚ) : WithTop ℚ) ∧
    (checkCollisions [⟨some ⟨1, 1, 1⟩, some ⟨⟨-7/10, -7/10, -7/10⟩,
        ⟨7/10, 7/10, 7/10⟩⟩⟩] ⟨19/10, 17/10, 3/2⟩ (3/10)).normal = ⟨0, 0, 1⟩ ∧
    (checkCollisions [⟨some ⟨1, 1, 1⟩, some ⟨⟨-7/10, -7/10, -7/10⟩,
        ⟨7/10, 7/10, 7/10⟩⟩⟩] ⟨19/10, 17/10, 3/2⟩ (3/10)).distance =
      ((3/4 : ℚ) : WithTop ℚ) := by
  have h := resolver_distance_amended ⟨1, 1, 1⟩
    ⟨⟨-7/10, -7/10, -7/10⟩, ⟨7/10, 7/10, 7/10⟩⟩ ⟨2, 2, 2⟩ (3/10)
    (by norm_num [floorCollisionBox, playerHeight])
    (by norm_num [dist2])
    (by norm_num [Box3.containsPoint, Box3.translate, Box3.expandByScalar])
  have hx := h.2.2.1 (by
    norm_num [Box3.translate, Box3.expandByScalar, Box3.center, Box3.size,
      abs_of_nonneg, abs_of_nonpos])
  have hb := hx.2.2
    (by norm_num [Box3.translate, Box3.expandByScalar, Box3.center, Box3.size,
      abs_of_nonneg, abs_of_nonpos])
    (by norm_num [Box3.translate, Box3.expandByScalar, Box3.size])
  have h2 := resolver_distance_amended ⟨1, 1, 1⟩
    ⟨⟨-7/10, -7/10, -7/10⟩, ⟨7/10, 7/10, 7/10⟩⟩ ⟨19/10, 17/10, 3/2⟩ (3/10)
    (by norm_num [floorCollisionBox, playerHeight])
    (by norm_num [dist2])
    (by norm_num [Box3.containsPoint, Box3.translate, Box3.expandByScalar])
  have hz := h2.2.2.2.2
    (by norm_num [Box3.translate, Box3.expandByScalar, Box3.center, Box3.size,
      abs_of_nonneg, abs_of_nonpos])
    (by norm_num [Box3.translate, Box3.expandByScalar, Box3.center, Box3.size,
      abs_of_nonneg, abs_of_nonpos])
  refine ⟨?_, ?_, ?_, ?_⟩
  · rw [hx.1]
    norm_num [Box3.translate, Box3.expandByScalar, Box3.center, mathSign]
  · rw [hb.1]
    norm_num [Box3.translate, Box3.expandByScalar, Box3.size]
  · rw [hz.1]
    norm_num [Box3.translate, Box3.expandByScalar, Box3.center, mathSign]
  · rw [hz.2.1]
    norm_num [Box3.translate, Box3.expandByScalar, Box3.center, Box3.size,
      abs_of_nonneg, abs_of_nonpos]

/-- C2 counterexample: at `(1.9, 1.7, 1.5)` inside the expanded box
`[0,2]^3`, the z axis is chosen and the source reports distance `3/4`,
whereas the claim's formula `halfExtent * (1 - |offset/halfExtent|)` (offset
normalized by the half-extent) gives `1/2`. -/
theorem resolver_distance_cex :
    (checkCollisions [⟨some ⟨1, 1, 1⟩, some ⟨⟨-7/10, -7/10, -7/10⟩,
        ⟨7/10, 7/10, 7/10⟩⟩⟩] ⟨19/10, 17/10, 3/2⟩ (3/10)).normal = ⟨0, 0, 1⟩ ∧
    (checkCollisions [⟨some ⟨1, 1, 1⟩, some ⟨⟨-7/10, -7/10, -7/10⟩,
        ⟨7/10, 7/10, 7/10⟩⟩⟩] ⟨19/10, 17/10, 3/2⟩ (3/10)).distance =
      ((3/4 : ℚ) : WithTop ℚ) ∧
    claimedPenetration 1 ((3/2 : ℚ) - 1) = 1/2 ∧ ((1/2 : ℚ) ≠ 3/4) := by
  refine ⟨?_, ?_, ?_, by norm_num⟩ <;>
  norm_num [checkCollisions, collideStep, leastAxis, claimedPenetration,
    Box3.containsPoint, Box3.center, Box3.size, Box3.expandByScalar,
    Box3.translate, dist2, mathSign, playerHeight, playerRadius,
    floorCollisionBox, abs_of_nonneg, abs_of_nonpos]

/-- C4.  The ground detector reports supported at the intersection height
when the nearest downward intersection is strictly closer than
`standingHeight/2 + 0.1`; failing that, it reports supported at height 0
exactly when `position.y ≤ standingHeight`, and otherwise unsupported (the
`groundY` of the fallback is 0 in both cases). -/
theorem ground_detector_thm (sol : List Solid) (p : Vec3) :
    (∀ hit : ℚ × ℚ, nearestHit sol p = some hit →
        hit.1 < playerHeight * (1/2) + 1/10 → checkGround sol p = ⟨true, hit.2⟩) ∧
    (∀ hit : ℚ × ℚ, nearestHit sol p = some hit →
        ¬(hit.1 < playerHeight * (1/2) + 1/10) →
        checkGround sol p = ⟨decide (p.y ≤ playerHeight), 0⟩) ∧
    (nearestHit sol p = none →
        checkGround sol p = ⟨decide (p.y ≤ playerHeight), 0⟩) := by
  refine ⟨fun hit hh hd => ?_, fun hit hh hd => ?_, fun hh => ?_⟩
  · rw [checkGround, hh]
    dsimp only
    rw [if_pos hd]
  · rw [checkGround, hh]
    dsimp only
    rw [if_neg hd]
    split_ifs with hy
    · rw [decide_eq_true hy]
    · rw [decide_eq_false hy]
  · rw [checkGround, hh]
    dsimp only
    split_ifs with hy
    · rw [decide_eq_true hy]
    · rw [decide_eq_false hy]

/-- C4 witness: a slab with top face at height 1, probed from height 1.8;
the hit distance 0.8 is within 0.9 and the detector reports supported at the
intersection height 1. -/
theorem ground_detector_thm_witness :
    checkGround [⟨some ⟨0, 0, 0⟩, some ⟨⟨-2, -1, -2⟩, ⟨2, 1, 2⟩⟩⟩]
      ⟨0, 9/5, 0⟩ = ⟨true, 1⟩ :=
  (ground_detector_thm [⟨some ⟨0, 0, 0⟩, some ⟨⟨-2, -1, -2⟩, ⟨2, 1, 2⟩⟩⟩]
    ⟨0, 9/5, 0⟩).1 (4/5, 1)
    (by norm_num [nearestHit, rayHitDown, Box3.translate])
    (by norm_num [playerHeight])

/-- C5.  The Space handler starts a jump exactly when `canJump` holds: it
then sets the vertical velocity to `sqrt (2 * gravity * jumpHeight) =
sqrt 120 > 0`, sets `isJumping` and clears `canJump`; when `canJump` is
false the handler changes nothing. -/
theorem jump_trigger_thm (s : JumpKeyState) :
    (s.canJump = true →
      spaceKeydown s =
        ⟨false, true, Real.sqrt (2 * (gravity : ℝ) * (jumpHeight : ℝ))⟩ ∧
      (spaceKeydown s).jumpVelocity = Real.sqrt 120 ∧
      0 < (spaceKeydown s).jumpVelocity) ∧
    (s.canJump = false → spaceKeydown s = s) := by
  have h120 : (2 * (gravity : ℝ) * (jumpHeight : ℝ)) = 120 := by
    norm_num [gravity, jumpHeight]
  constructor
  · intro h
    rw [spaceKeydown, if_pos h]
    refine ⟨rfl, ?_, ?_⟩
    · dsimp only
      rw [h120]
    · dsimp only
      rw [h120]
      exact Real.sqrt_pos.mpr (by norm_num)
  · intro h
    rw [spaceKeydown, if_neg (by rw [h]; exact Bool.false_ne_true)]

/-- C5 witness: from a grounded state the handler produces the jump start
with a strictly positive vertical velocity. -/
theorem jump_trigger_thm_witness :
    spaceKeydown ⟨true, false, 0⟩ =
      ⟨false, true, Real.sqrt (2 * (gravity : ℝ) * (jumpHeight : ℝ))⟩ ∧
    0 < (spaceKeydown ⟨true, false, 0⟩).jumpVelocity :=
  ⟨((jump_trigger_thm ⟨true, false, 0⟩).1 rfl).1,
   ((jump_trigger_thm ⟨true, false, 0⟩).1 rfl).2.2⟩

/-- C6.  While ascending, if the ground check at the vertically integrated
position reports supported and the decremented jump velocity is
non-positive, the landing step snaps the height to `groundY + playerHeight`,
zeroes the jump velocity, clears `isJumping`, and re-arms `canJump`. -/
theorem landing_snap_thm (sol : List Solid) (dt : ℚ) (s : PlayerState)
    (h1 : (applyVertical dt s).isJumping = true)
    (h2 : (checkGround sol (applyVertical dt s).pos).onGround = true)
    (h3 : (applyVertical dt s).jumpVelocity ≤ 0) :
    applyLanding (checkGround sol (applyVertical dt s).pos) (applyVertical dt s) =
      { applyVertical dt s with
        pos := ⟨(applyVertical dt s).pos.x,
          (checkGround sol (applyVertical dt s).pos).groundY + playerHeight,
          (applyVertical dt s).pos.z⟩,
        jumpVelocity := 0, isJumping := false, canJump := true } := by
  rw [applyLanding, if_pos ⟨h1, h2, h3⟩]

/-- C6 witness: an ascending body at height 1.5 with zero jump velocity
lands on the world-floor fallback: the height snaps to `0 + 1.6`, the jump
velocity zeroes, ascending clears and `canJump` re-arms. -/
theorem landing_snap_thm_witness :
    applyLanding
      (checkGround [] (applyVertical (1/100)
        ⟨⟨0, 3/2, 0⟩, 0, 0, 0, true, false, 1, 0⟩).pos)
      (applyVertical (1/100) ⟨⟨0, 3/2, 0⟩, 0, 0, 0, true, false, 1, 0⟩) =
      ⟨⟨0, 8/5, 0⟩, 0, 0, 0, false, true, 1, 0⟩ := by
  have h := landing_snap_thm [] (1/100) ⟨⟨0, 3/2, 0⟩, 0, 0, 0, true, false, 1, 0⟩
    (by norm_num [applyVertical])
    (by norm_num [applyVertical, checkGround, nearestHit, playerHeight])
    (by norm_num [applyVertical, gravity])
  refine h.trans ?_
  norm_num [applyVertical, checkGround, nearestHit, playerHeight, gravity]

/-- A loop step either leaves the running result's source object unchanged or
commits the tested solid, and in the latter case that solid has a position
within the 5-unit broad-phase cutoff. -/
theorem collideStep_object_near (p : Vec3) (r : ℚ) (acc : CollisionResult)
    (obj : Solid) :
    (collideStep p r acc obj).object = acc.object ∨
    ((collideStep p r acc obj).object = some obj ∧
      ∃ wp, obj.position = some wp ∧ dist2 wp p ≤ 25) := by
  obtain ⟨pos?, box?⟩ := obj
  cases pos? with
  | none => exact Or.inl rfl
  | some wp =>
    cases box? with
    | none =>
      simp only [collideStep]
      split
      · exact Or.inl rfl
      · exact Or.inl rfl
    | some gb =>
      simp only [collideStep]
      split
      · exact Or.inl rfl
      · next hnear =>
        split
        · split
          · exact Or.inr ⟨rfl, wp, rfl, not_lt.mp hnear⟩
          · exact Or.inl rfl
        · exact Or.inl rfl

/-- Folding the solids loop never commits a solid whose recorded position is
farther than the broad-phase cutoff. -/
theorem foldl_object_far (p : Vec3) (r : ℚ) (o : Solid) (wp : Vec3)
    (hpos : o.position = some wp) (hfar : 25 < dist2 wp p) (sol : List Solid) :
    ∀ acc : CollisionResult, acc.object ≠ some o →
      (sol.foldl (collideStep p r) acc).object ≠ some o := by
  induction sol with
  | nil => intro acc h; simpa using h
  | cons a l ih =>
    intro acc h
    rw [List.foldl_cons]
    apply ih
    rcases collideStep_object_near p r acc a with hsame | ⟨hobj, wp', hpos', hnear⟩
    · rw [hsame]; exact h
    · rw [hobj]
      intro hcontra
      have hao : a = o := Option.some.inj hcontra
      subst hao
      have hww : wp = wp' := Option.some.inj (hpos.symm.trans hpos')
      subst hww
      linarith

/-- C7.  A solid whose recorded center position lies strictly farther than 5
world units from the query position is never returned as the collision
source, whatever its bounding box. -/
theorem broadphase_cutoff_thm (sol : List Solid) (p : Vec3) (r : ℚ) (o : Solid)
    (wp : Vec3) (hpos : o.position = some wp) (hfar : 25 < dist2 wp p) :
    (checkCollisions sol p r).object ≠ some o := by
  rw [checkCollisions]
  split
  · intro hcontra
    exact Option.noConfusion hcontra
  · exact foldl_object_far p r o wp hpos hfar sol _ (fun hcontra =>
      Option.noConfusion hcontra)

/-- C7 witness: a huge solid centered 10 units away, whose radius-expanded
box does contain the query position, is still not returned as the collision
source. -/
theorem broadphase_cutoff_thm_witness :
    (checkCollisions [⟨some ⟨0, 0, 10⟩, some ⟨⟨-12, -12, -12⟩, ⟨12, 12, 12⟩⟩⟩]
        ⟨0, 8/5, 0⟩ (3/10)).object ≠
      some ⟨some ⟨0, 0, 10⟩, some ⟨⟨-12, -12, -12⟩, ⟨12, 12, 12⟩⟩⟩ :=
  broadphase_cutoff_thm _ _ _ _ ⟨0, 0, 10⟩ rfl (by norm_num [dist2])

/-- C8.  Same-mode transitions are idempotent: the viewpoint-button handler
(the Overview→Overview entry) applied twice equals applying it once, and the
click-to-lock handler (the FirstPerson→FirstPerson re-entry) applied twice
equals applying it once; re-entering overview from an overview state changes
nothing but the camera snap (position and orbit target), and a click while
already locked is a strict no-op.  The view-mode toggle itself always flips
the mode, so it never performs a same-mode transition. -/
theorem mode_idempotent_thm :
    (∀ (v : Viewpoint) (s : ModeState),
        selectViewpoint v (selectViewpoint v s) = selectViewpoint v s) ∧
    (∀ s : ModeState, clickToLock (clickToLock s) = clickToLock s) ∧
    (∀ (v : Viewpoint) (s : ModeState), s.overviewMode = true →
        s.locked = false → s.orbitEnabled = true → s.instructionsHidden = true →
        selectViewpoint v s =
          { s with cameraPos := v.vpos, orbitTarget := v.vtarget }) ∧
    (∀ s : ModeState, s.locked = true → clickToLock s = s) ∧
    (∀ s : ModeState, (toggleViewMode s).overviewMode = !s.overviewMode) := by
  refine ⟨fun v s => rfl, fun s => ?_, fun v s h1 h2 h3 h4 => ?_,
    fun s h => ?_, fun s => ?_⟩
  · obtain ⟨ov, lk, oe, ih, cp, ot⟩ := s
    cases lk <;> cases ov <;> rfl
  · obtain ⟨ov, lk, oe, ih, cp, ot⟩ := s
    dsimp at h1 h2 h3 h4
    subst h1
    subst h2
    subst h3
    subst h4
    rfl
  · obtain ⟨ov, lk, oe, ih, cp, ot⟩ := s
    dsimp at h
    subst h
    rfl
  · cases hov : s.overviewMode <;> simp [toggleViewMode, hov]

/-- C8 witness: snapping to the source's Speaker's Chair viewpoint from an
overview state changes only the camera position and orbit target. -/
theorem mode_idempotent_thm_witness :
    selectViewpoint ⟨⟨0, 2, -10⟩, ⟨0, 1, 0⟩⟩
        ⟨true, false, true, true, ⟨0, 15, 0⟩, ⟨0, 0, 0⟩⟩ =
      ⟨true, false, true, true, ⟨0, 2, -10⟩, ⟨0, 1, 0⟩⟩ :=
  (mode_idempotent_thm.2.2.1 ⟨⟨0, 2, -10⟩, ⟨0, 1, 0⟩⟩
    ⟨true, false, true, true, ⟨0, 15, 0⟩, ⟨0, 0, 0⟩⟩ rfl rfl rfl rfl).trans rfl

/-- C9.  Degraded inputs are safe: with an empty solids list the resolver
can only report the floor backstop (upward normal, no source object) and the
ground detector falls back to the world floor (`onGround` iff
`position.y ≤ playerHeight`, at height 0); a solid lacking a position or a
bounding box is skipped by the resolver, leaving the result as if the solid
were absent. -/
theorem degraded_inputs_thm :
    (∀ (p : Vec3) (r : ℚ), (checkCollisions [] p r).object = none ∧
        ((checkCollisions [] p r).colliding = true →
          (checkCollisions [] p r).normal = ⟨0, 1, 0⟩)) ∧
    (∀ p : Vec3, checkGround [] p = ⟨decide (p.y ≤ playerHeight), 0⟩) ∧
    (∀ (pre post : List Solid) (bad : Solid) (p : Vec3) (r : ℚ),
        bad.position = none ∨ bad.geomBox = none →
        checkCollisions (pre ++ bad :: post) p r =
          checkCollisions (pre ++ post) p r) := by
  refine ⟨fun p r => ?_, fun p => ?_, fun pre post bad p r hbad => ?_⟩
  · rw [checkCollisions]
    split_ifs with h
    · exact ⟨rfl, fun _ => rfl⟩
    · exact ⟨rfl, fun hc => by simp at hc⟩
  · rw [checkGround]
    dsimp only [nearestHit, List.foldl_nil]
    split_ifs with hy
    · rw [decide_eq_true hy]
    · rw [decide_eq_false hy]
  · have hskip : ∀ acc, collideStep p r acc bad = acc := by
      intro acc
      obtain ⟨pos?, box?⟩ := bad
      rcases hbad with hb | hb
      · dsimp only at hb
        subst hb
        rfl
      · dsimp only at hb
        subst hb
        cases pos? with
        | none => rfl
        | some wp =>
          simp only [collideStep]
          split
          · rfl
          · rfl
    rw [checkCollisions, checkCollisions]
    split_ifs with h
    · rfl
    · rw [List.foldl_append, List.foldl_append, List.foldl_cons, hskip]

/-- C9 witness: a positionless solid in front of a real one changes nothing
about the resolver's answer. -/
theorem degraded_inputs_thm_witness :
    checkCollisions [⟨none, some ⟨⟨-1, -1, -1⟩, ⟨1, 1, 1⟩⟩⟩,
        ⟨some ⟨0, 2, 0⟩, some ⟨⟨-1, -1, -1⟩, ⟨1, 1, 1⟩⟩⟩] ⟨1/2, 8/5, 1/2⟩ (3/10) =
      checkCollisions [⟨some ⟨0, 2, 0⟩, some ⟨⟨-1, -1, -1⟩, ⟨1, 1, 1⟩⟩⟩]
        ⟨1/2, 8/5, 1/2⟩ (3/10) :=
  degraded_inputs_thm.2.2 [] [⟨some ⟨0, 2, 0⟩, some ⟨⟨-1, -1, -1⟩, ⟨1, 1, 1⟩⟩⟩]
    ⟨none, some ⟨⟨-1, -1, -1⟩, ⟨1, 1, 1⟩⟩⟩ ⟨1/2, 8/5, 1/2⟩ (3/10) (Or.inl rfl)

/-- C10, amended.  The per-tick first-person update is deterministic once
the camera orientation is included in the initial state: two runs that agree
on position, horizontal velocity, vertical velocity, the jump flags, the
camera right vector, the input flags, the elapsed time and the solids list
produce identical states.  (The original claim omits the camera orientation,
on which the moved position genuinely depends; see the counterexample.) -/
theorem tick_deterministic_amended (inv : ℚ) (sol : List Solid) (inp : Inputs)
    (dt : ℚ) (s t : PlayerState) (h1 : s.pos = t.pos) (h2 : s.velX = t.velX)
    (h3 : s.velZ = t.velZ) (h4 : s.jumpVelocity = t.jumpVelocity)
    (h5 : s.isJumping = t.isJumping) (h6 : s.canJump = t.canJump)
    (h7 : s.rightX = t.rightX) (h8 : s.rightZ = t.rightZ) :
    tick inv sol inp dt s = tick inv sol inp dt t := by
  obtain ⟨p1, a1, b1, c1, d1, e1, f1, g1⟩ := s
  obtain ⟨p2, a2, b2, c2, d2, e2, f2, g2⟩ := t
  dsimp at h1 h2 h3 h4 h5 h6 h7 h8
  subst h1
  subst h2
  subst h3
  subst h4
  subst h5
  subst h6
  subst h7
  subst h8
  rfl

/-- C10 witness: two syntactically different but equal initial states give
the same tick result. -/
theorem tick_deterministic_amended_witness :
    tick (7071067811865476 / 10000000000000000) [] ⟨true, false, false, false⟩
        (1/20) ⟨⟨0, 8/5, 0⟩, 0, 0, 0, false, true, 1, 0⟩ =
      tick (7071067811865476 / 10000000000000000) [] ⟨true, false, false, false⟩
        (1/20) ⟨⟨0, 16/10, 0⟩, 0, 0, 0, false, true, 1, 0⟩ :=
  tick_deterministic_amended _ _ _ _ _ _ (by norm_num) rfl rfl rfl rfl rfl rfl rfl

/-- C10 counterexample: two runs agreeing on every state component the claim
lists (body position, horizontal and vertical velocity, `ascending`,
`canJump`), with the same inputs, `dt` and solids, but different camera yaw
(right vector `(1,0)` versus `(0,1)`) end at different positions — the claim
as stated is false because the tick also reads the camera orientation. -/
theorem tick_deterministic_cex :
    (⟨⟨0, 8/5, 0⟩, 0, 0, 0, false, true, 1, 0⟩ : PlayerState).pos =
      (⟨⟨0, 8/5, 0⟩, 0, 0, 0, false, true, 0, 1⟩ : PlayerState).pos ∧
    (⟨⟨0, 8/5, 0⟩, 0, 0, 0, false, true, 1, 0⟩ : PlayerState).velX =
      (⟨⟨0, 8/5, 0⟩, 0, 0, 0, false, true, 0, 1⟩ : PlayerState).velX ∧
    (⟨⟨0, 8/5, 0⟩, 0, 0, 0, false, true, 1, 0⟩ : PlayerState).velZ =
      (⟨⟨0, 8/5, 0⟩, 0, 0, 0, false, true, 0, 1⟩ : PlayerState).velZ ∧
    (⟨⟨0, 8/5, 0⟩, 0, 0, 0, false, true, 1, 0⟩ : PlayerState).jumpVelocity =
      (⟨⟨0, 8/5, 0⟩, 0, 0, 0, false, true, 0, 1⟩ : PlayerState).jumpVelocity ∧
    (⟨⟨0, 8/5, 0⟩, 0, 0, 0, false, true, 1, 0⟩ : PlayerState).isJumping =
      (⟨⟨0, 8/5, 0⟩, 0, 0, 0, false, true, 0, 1⟩ : PlayerState).isJumping ∧
    (⟨⟨0, 8/5, 0⟩, 0, 0, 0, false, true, 1, 0⟩ : PlayerState).canJump =
      (⟨⟨0, 8/5, 0⟩, 0, 0, 0, false, true, 0, 1⟩ : PlayerState).canJump ∧
    tick (7071067811865476 / 10000000000000000) [] ⟨true, false, false, false⟩
        (1/20) ⟨⟨0, 8/5, 0⟩, 0, 0, 0, false, true, 1, 0⟩ ≠
      tick (7071067811865476 / 10000000000000000) [] ⟨true, false, false, false⟩
        (1/20) ⟨⟨0, 8/5, 0⟩, 0, 0, 0, false, true, 0, 1⟩ := by
  refine ⟨rfl, rfl, rfl, rfl, rfl, rfl, fun h => ?_⟩
  have hx := congrArg (fun st : PlayerState => st.pos.x) h
  norm_num [tick, preCollide, applyVertical, applyLanding, applyFallStart,
    applyFloorClamp, applyHorizontal, applyCollision, checkCollisions,
    collideStep, leastAxis, checkGround, nearestHit, rayHitDown,
    Box3.containsPoint, Box3.center, Box3.size, Box3.expandByScalar,
    Box3.translate, dist2, mathSign, boolQ, gravity, jumpHeight,
    playerHeight, playerRadius, floorCollisionBox, abs_of_nonneg,
    abs_of_nonpos] at hx

end InsideParliament
